import Mathlib

/-!
# Nutri-Tracker: verification of the personalized-goal calculator and its HTTP endpoint

Shallow embedding of `server/services/nutrition-calculator.ts` (the goal
calculator), the Zod schema `calculateGoalsSchema` from `shared/schema.ts`,
the `POST /api/calculate-goals` route from `server/routes.ts`, and
`MemStorage.updateDailyGoals` from `server/storage.ts`.

JavaScript numbers are modelled as exact rationals (`ℚ`); `Math.round` is
modelled as rounding half toward positive infinity, which is its JavaScript
semantics.
-/

namespace NutriTracker

/-- JavaScript `Math.round`: rounds half toward positive infinity,
`Math.round x = ⌊x + 0.5⌋`. -/
def jsRound (q : ℚ) : ℤ := ⌊q + 1/2⌋

/-- The `gender` enum of `calculateGoalsSchema`. -/
inductive Gender
  | male
  | female
deriving DecidableEq, Repr

/-- The five activity-level keys of `ACTIVITY_MULTIPLIERS`
(also the enum of `calculateGoalsSchema.activityLevel`). -/
def ACTIVITY_LEVELS : List String :=
  ["sedentary", "lightly_active", "moderately_active", "very_active", "extremely_active"]

/-- The `ACTIVITY_MULTIPLIERS` table restricted to OWN data properties:
`some` multiplier for the five keys, `none` otherwise. This models the
lookup only for own properties — exactly the domain the schema enum
admits. Full JavaScript property access also consults `Object.prototype`
(see `activityMultiplierLookup` below). -/
def ACTIVITY_MULTIPLIERS (level : String) : Option ℚ :=
  if level = "sedentary" then some (12/10)
  else if level = "lightly_active" then some (1375/1000)
  else if level = "moderately_active" then some (155/100)
  else if level = "very_active" then some (1725/1000)
  else if level = "extremely_active" then some (19/10)
  else none

/-- `calculateBMR` (Mifflin-St Jeor):
`baseBMR = 10*weight + 6.25*height - 5*age`, plus 5 for male, minus 161
for female. -/
def calculateBMR (weight height age : ℚ) (gender : Gender) : ℚ :=
  let baseBMR := 10 * weight + (25/4) * height - 5 * age
  match gender with
  | .male => baseBMR + 5
  | .female => baseBMR - 161

/-- `calculateTDEE`: `bmr * multiplier`, where the multiplier lookup
`ACTIVITY_MULTIPLIERS[activityLevel] || 1.2` falls back to 1.2 on a miss
(all five table values are nonzero, so JavaScript truthiness coincides with
presence in the table). Faithful whenever `activityLevel` is one of the
five enum keys the schema admits; for arbitrary strings the prototype
chain matters and `calculateTDEEjs` below is the faithful model. -/
def calculateTDEE (bmr : ℚ) (activityLevel : String) : ℚ :=
  let multiplier := (ACTIVITY_MULTIPLIERS activityLevel).getD (12/10)
  bmr * multiplier

/-- The property names an object literal inherits from `Object.prototype`:
accessing any of these on `ACTIVITY_MULTIPLIERS` returns a truthy
non-number (a function, or the prototype object for the `__proto__`
accessor), so the `|| 1.2` fallback does not fire. -/
def OBJECT_PROTOTYPE_KEYS : List String :=
  ["constructor", "hasOwnProperty", "isPrototypeOf", "propertyIsEnumerable",
   "toLocaleString", "toString", "valueOf",
   "__defineGetter__", "__defineSetter__", "__lookupGetter__", "__lookupSetter__",
   "__proto__"]

/-- Result of the property access `ACTIVITY_MULTIPLIERS[level]` under full
JavaScript semantics: an own key yields its number, an `Object.prototype`
key yields a truthy non-number inherited value, anything else is
undefined. -/
inductive JsLookup
  | ownNum (q : ℚ)
  | protoTruthy
  | missing
deriving DecidableEq, Repr

/-- `ACTIVITY_MULTIPLIERS[level]` with the prototype chain consulted, as
JavaScript evaluates it at runtime. -/
def activityMultiplierLookup (level : String) : JsLookup :=
  match ACTIVITY_MULTIPLIERS level with
  | some m => .ownNum m
  | none => if level ∈ OBJECT_PROTOTYPE_KEYS then .protoTruthy else .missing

/-- A JavaScript number: an actual number (modelled as a rational) or NaN,
which is what multiplying a number by a non-numeric truthy value
produces. -/
inductive JSNum
  | num (q : ℚ)
  | nan
deriving DecidableEq, Repr

/-- `calculateTDEE` under full JavaScript property-access semantics:
`bmr * multiplier` where the multiplier is the prototype-aware lookup
`|| 1.2`. Only `undefined` is falsy here, so an inherited
`Object.prototype` value survives the `||` and the multiplication yields
NaN. -/
def calculateTDEEjs (bmr : ℚ) (activityLevel : String) : JSNum :=
  match activityMultiplierLookup activityLevel with
  | .ownNum m => .num (bmr * m)
  | .protoTruthy => .nan
  | .missing => .num (bmr * (12/10))

/-- `SAFE_WEIGHT_CHANGE_RATES.maxWeightLossPerWeek` (kg/week). -/
def maxWeightLossPerWeek : ℚ := 1

/-- `SAFE_WEIGHT_CHANGE_RATES.maxWeightGainPerWeek` (kg/week). -/
def maxWeightGainPerWeek : ℚ := 1/2

/-- `SAFE_WEIGHT_CHANGE_RATES.minWeightLossPerWeek` (kg/week). -/
def minWeightLossPerWeek : ℚ := 1/4

/-- `SAFE_WEIGHT_CHANGE_RATES.minWeightGainPerWeek` (kg/week). -/
def minWeightGainPerWeek : ℚ := 1/4

/-- `calculateWeightChangeRate`: desired weekly change
`(targetWeight - currentWeight) / (timeframeMonths * 4.33)`, with the
magnitude clamped into the safe band and the sign chosen by
`totalWeightChange < 0`. -/
def calculateWeightChangeRate (currentWeight targetWeight timeframeMonths : ℚ) : ℚ :=
  let totalWeightChange := targetWeight - currentWeight
  let timeframeWeeks := timeframeMonths * (433/100)
  let desiredWeeklyChange := totalWeightChange / timeframeWeeks
  let isWeightLoss := totalWeightChange < 0
  let absDesiredChange := |desiredWeeklyChange|
  if isWeightLoss then
    -(min (max absDesiredChange minWeightLossPerWeek) maxWeightLossPerWeek)
  else
    min (max absDesiredChange minWeightGainPerWeek) maxWeightGainPerWeek

/-- `calculateCalorieAdjustment`: `Math.round(weeklyWeightChange * 7700 / 7)`. -/
def calculateCalorieAdjustment (weeklyWeightChange : ℚ) : ℤ :=
  jsRound ((weeklyWeightChange * 7700) / 7)

/-- Result record of `calculateMacronutrients`. -/
structure Macros where
  carbs : ℤ
  protein : ℤ
  fat : ℤ
deriving DecidableEq, Repr

/-- `calculateMacronutrients`: protein from target weight (2.0 g/kg when
losing, 1.8 otherwise), fat as 28% of total calories, carbs as the
remainder clamped at zero; each returned field rounded once at the end.
Note: `proteinCalories` is computed from the UNROUNDED gram value. -/
def calculateMacronutrients (totalCalories targetWeight : ℚ) (isWeightLoss : Bool) : Macros :=
  let proteinPerKg : ℚ := if isWeightLoss then 2 else 9/5
  let proteinGrams := targetWeight * proteinPerKg
  let proteinCalories := proteinGrams * 4
  let fatPercentage : ℚ := 28/100
  let fatCalories := totalCalories * fatPercentage
  let fatGrams := fatCalories / 9
  let remainingCalories := totalCalories - proteinCalories - fatCalories
  let carbGrams := max (remainingCalories / 4) 0
  { carbs := jsRound carbGrams
    protein := jsRound proteinGrams
    fat := jsRound fatGrams }

/-- `CalculateGoalsRequest`: the validated request shape
(gender already narrowed to the enum; activityLevel kept as the raw string,
as in the TypeScript signature of `calculateTDEE`). -/
structure CalculateGoalsRequest where
  age : ℚ
  gender : Gender
  currentWeight : ℚ
  targetWeight : ℚ
  height : ℚ
  activityLevel : String
  timeframe : ℚ
deriving DecidableEq, Repr

/-- `CalculatedGoals`: the output record of `calculatePersonalizedGoals`.
All fields except `weightChangePerWeek` are integers after rounding. -/
structure CalculatedGoals where
  calories : ℤ
  carbs : ℤ
  protein : ℤ
  fat : ℤ
  bmr : ℤ
  tdee : ℤ
  weightChangePerWeek : ℚ
  calorieAdjustment : ℤ
deriving DecidableEq, Repr

/-- `calculatePersonalizedGoals`: BMR, TDEE, clamped weekly change, calorie
adjustment, target calories rounded then floored at 1200 (female) / 1500
(male), macros computed from the floored total. -/
def calculatePersonalizedGoals (request : CalculateGoalsRequest) : CalculatedGoals :=
  let bmr := calculateBMR request.currentWeight request.height request.age request.gender
  let tdee := calculateTDEE bmr request.activityLevel
  let weeklyWeightChange :=
    calculateWeightChangeRate request.currentWeight request.targetWeight request.timeframe
  let calorieAdjustment := calculateCalorieAdjustment weeklyWeightChange
  let targetCalories := jsRound (tdee + (calorieAdjustment : ℚ))
  let minimumCalories : ℤ := match request.gender with
    | .female => 1200
    | .male => 1500
  let finalCalories := max targetCalories minimumCalories
  let isWeightLoss := decide (request.targetWeight < request.currentWeight)
  let macros := calculateMacronutrients (finalCalories : ℚ) request.targetWeight isWeightLoss
  { calories := finalCalories
    carbs := macros.carbs
    protein := macros.protein
    fat := macros.fat
    bmr := jsRound bmr
    tdee := jsRound tdee
    weightChangePerWeek := (jsRound (weeklyWeightChange * 100) : ℚ) / 100
    calorieAdjustment := calorieAdjustment }

/-- The numeric-range and enum constraints of `calculateGoalsSchema`
(`shared/schema.ts`): age 1-120, weights 1-500, height 50-300,
activityLevel one of the five keys, timeframe 1-24. -/
def validProfile (r : CalculateGoalsRequest) : Prop :=
  1 ≤ r.age ∧ r.age ≤ 120 ∧
  1 ≤ r.currentWeight ∧ r.currentWeight ≤ 500 ∧
  1 ≤ r.targetWeight ∧ r.targetWeight ≤ 500 ∧
  50 ≤ r.height ∧ r.height ≤ 300 ∧
  r.activityLevel ∈ ACTIVITY_LEVELS ∧
  1 ≤ r.timeframe ∧ r.timeframe ≤ 24

instance : DecidablePred validProfile := fun r => by
  unfold validProfile
  infer_instance

/-! ## HTTP layer: schema parsing, storage, and the calculate-goals route -/

/-- Raw request body for `POST /api/calculate-goals`, before schema
validation: numeric fields arrive as numbers, gender and activityLevel as
strings. -/
structure RawGoalsBody where
  age : ℚ
  gender : String
  currentWeight : ℚ
  targetWeight : ℚ
  height : ℚ
  activityLevel : String
  timeframe : ℚ
deriving DecidableEq, Repr

/-- `calculateGoalsSchema.parse`: checks every field against its documented
range or enum; returns the typed request on success, and the list of
failing field names (the structured ZodError) on failure. -/
def calculateGoalsSchemaParse (b : RawGoalsBody) :
    Except (List String) CalculateGoalsRequest :=
  let failing : List String :=
    (if 1 ≤ b.age ∧ b.age ≤ 120 then [] else ["age"]) ++
    (if b.gender = "male" ∨ b.gender = "female" then [] else ["gender"]) ++
    (if 1 ≤ b.currentWeight ∧ b.currentWeight ≤ 500 then [] else ["currentWeight"]) ++
    (if 1 ≤ b.targetWeight ∧ b.targetWeight ≤ 500 then [] else ["targetWeight"]) ++
    (if 50 ≤ b.height ∧ b.height ≤ 300 then [] else ["height"]) ++
    (if b.activityLevel ∈ ACTIVITY_LEVELS then [] else ["activityLevel"]) ++
    (if 1 ≤ b.timeframe ∧ b.timeframe ≤ 24 then [] else ["timeframe"])
  if failing = [] then
    .ok { age := b.age
          gender := if b.gender = "female" then .female else .male
          currentWeight := b.currentWeight
          targetWeight := b.targetWeight
          height := b.height
          activityLevel := b.activityLevel
          timeframe := b.timeframe }
  else
    .error failing

/-- The `daily_goals` record held by `MemStorage` (`server/storage.ts`):
an id plus the four macro targets. -/
structure DailyGoals where
  id : ℤ
  calories : ℚ
  carbs : ℚ
  protein : ℚ
  fat : ℚ
deriving DecidableEq, Repr

/-- The daily goals installed by the `MemStorage` constructor. -/
def initialDailyGoals : DailyGoals :=
  { id := 1, calories := 2000, carbs := 250, protein := 120, fat := 78 }

/-- `InsertDailyGoals`: the id-less update payload (schema omits `id`). -/
structure InsertDailyGoals where
  calories : ℚ
  carbs : ℚ
  protein : ℚ
  fat : ℚ
deriving DecidableEq, Repr

/-- `MemStorage.updateDailyGoals`: spread-merge
`{...this.dailyGoals, ...goals}` — the four payload fields overwrite the
stored ones, and `id`, absent from the payload, is kept. -/
def updateDailyGoals (st : DailyGoals) (goals : InsertDailyGoals) : DailyGoals :=
  { id := st.id
    calories := goals.calories
    carbs := goals.carbs
    protein := goals.protein
    fat := goals.fat }

/-- JSON body of a response from the calculate-goals endpoint. -/
inductive ResponseBody
  | goals (g : CalculatedGoals)
  | jsonMessage (s : String)
deriving DecidableEq, Repr

/-- An HTTP response: status code plus JSON body. `res.json(x)` without an
explicit status sends 200. -/
structure HttpResponse where
  status : ℕ
  body : ResponseBody
deriving DecidableEq, Repr

/-- The `POST /api/calculate-goals` handler (`server/routes.ts`): parse the
body with `calculateGoalsSchema`, compute the goals, overwrite the stored
daily goals with the computed values, and reply 200 with the goals; any
thrown error — including a ZodError from `parse` — lands in the catch
block, which replies 500 with a fixed message and leaves storage
untouched. -/
def postCalculateGoals (st : DailyGoals) (body : RawGoalsBody) :
    HttpResponse × DailyGoals :=
  match calculateGoalsSchemaParse body with
  | .error _ =>
    ({ status := 500, body := .jsonMessage "Failed to calculate nutrition goals" }, st)
  | .ok requestData =>
    let calculatedGoals := calculatePersonalizedGoals requestData
    let newStore := updateDailyGoals st
      { calories := (calculatedGoals.calories : ℚ)
        carbs := (calculatedGoals.carbs : ℚ)
        protein := (calculatedGoals.protein : ℚ)
        fat := (calculatedGoals.fat : ℚ) }
    ({ status := 200, body := .goals calculatedGoals }, newStore)

/-! ## Helper lemmas -/

theorem jsRound_nonneg (q : ℚ) (h : 0 ≤ q) : 0 ≤ jsRound q := by
  unfold jsRound
  exact Int.le_floor.mpr (by push_cast; linarith)

theorem jsRound_pos (q : ℚ) (h : 1 ≤ q) : 0 < jsRound q := by
  unfold jsRound
  have h1 : (1:ℤ) ≤ ⌊q + 1/2⌋ := Int.le_floor.mpr (by push_cast; linarith)
  omega

theorem clamp_mid (d lo hi : ℚ) (h1 : lo ≤ d) (h2 : d ≤ hi) :
    min (max d lo) hi = d := by
  rw [max_eq_left h1, min_eq_left h2]

theorem clamp_lo (d lo hi : ℚ) (h1 : d ≤ lo) (h2 : lo ≤ hi) :
    min (max d lo) hi = lo := by
  rw [max_eq_right h1, min_eq_left h2]

theorem clamp_pos (d lo hi : ℚ) (hlo : 0 < lo) (hhi : 0 < hi) :
    0 < min (max d lo) hi :=
  lt_min (lt_of_lt_of_le hlo (le_max_right d lo)) hhi

/-- Branch structure of `calculateWeightChangeRate`: the weight-loss branch
fires exactly when `targetWeight < currentWeight`. -/
theorem calculateWeightChangeRate_eq (c t tf : ℚ) :
    calculateWeightChangeRate c t tf =
      if t < c then
        -(min (max |(t - c) / (tf * (433/100))| minWeightLossPerWeek) maxWeightLossPerWeek)
      else
        min (max |(t - c) / (tf * (433/100))| minWeightGainPerWeek) maxWeightGainPerWeek := by
  simp only [calculateWeightChangeRate]
  rcases lt_or_le t c with h | h
  · rw [if_pos (sub_neg.mpr h), if_pos h]
  · rw [if_neg (not_lt.mpr (by linarith)), if_neg (not_lt.mpr h)]

theorem calculateTDEE_sedentary (b : ℚ) :
    calculateTDEE b "sedentary" = b * (12/10) := rfl

theorem calculateTDEE_lightly (b : ℚ) :
    calculateTDEE b "lightly_active" = b * (1375/1000) := rfl

theorem calculateTDEE_moderately (b : ℚ) :
    calculateTDEE b "moderately_active" = b * (155/100) := rfl

theorem calculateTDEE_very (b : ℚ) :
    calculateTDEE b "very_active" = b * (1725/1000) := rfl

theorem calculateTDEE_extremely (b : ℚ) :
    calculateTDEE b "extremely_active" = b * (19/10) := rfl

/-- Strings outside the five keys are not own properties of the table. -/
theorem ACTIVITY_MULTIPLIERS_eq_none (s : String) (hs : s ∉ ACTIVITY_LEVELS) :
    ACTIVITY_MULTIPLIERS s = none := by
  simp only [ACTIVITY_LEVELS, List.mem_cons, List.not_mem_nil, or_false, not_or] at hs
  obtain ⟨h1, h2, h3, h4, h5⟩ := hs
  unfold ACTIVITY_MULTIPLIERS
  rw [if_neg h1, if_neg h2, if_neg h3, if_neg h4, if_neg h5]

/-- A genuine lookup miss — a string that is neither an own key nor an
inherited `Object.prototype` property — is `undefined`, so `|| 1.2`
fires and the sedentary multiplier is used. -/
theorem calculateTDEEjs_miss (b : ℚ) (s : String) (hs : s ∉ ACTIVITY_LEVELS)
    (hp : s ∉ OBJECT_PROTOTYPE_KEYS) :
    calculateTDEEjs b s = .num (b * (12/10)) := by
  unfold calculateTDEEjs activityMultiplierLookup
  rw [ACTIVITY_MULTIPLIERS_eq_none s hs]
  simp only [if_neg hp]

/-- An inherited `Object.prototype` property is truthy, survives `|| 1.2`,
and multiplying bmr by it produces NaN. -/
theorem calculateTDEEjs_proto (b : ℚ) (p : String) (hs : p ∉ ACTIVITY_LEVELS)
    (hp : p ∈ OBJECT_PROTOTYPE_KEYS) :
    calculateTDEEjs b p = .nan := by
  unfold calculateTDEEjs activityMultiplierLookup
  rw [ACTIVITY_MULTIPLIERS_eq_none p hs]
  simp only [if_pos hp]

theorem clamp_hi (d lo hi : ℚ) (h1 : lo ≤ d) (h2 : hi ≤ d) :
    min (max d lo) hi = hi := by
  rw [max_eq_left h1, min_eq_right h2]

/-! ## Concrete profiles used as witnesses and counterexamples -/

/-- The worked example of the spec: 30-year-old male, 90 kg aiming for
80 kg in 6 months, 180 cm, moderately active. -/
def exampleProfile : CalculateGoalsRequest :=
  { age := 30, gender := .male, currentWeight := 90, targetWeight := 80,
    height := 180, activityLevel := "moderately_active", timeframe := 6 }

/-- A female profile whose pre-floor target (625 kcal) is below the
1200 kcal floor. -/
def floorProfile : CalculateGoalsRequest :=
  { age := 30, gender := .female, currentWeight := 60, targetWeight := 50,
    height := 150, activityLevel := "sedentary", timeframe := 3 }

/-- A slow-gain profile (60 kg to 61 kg): target weight times 1.8 g/kg is
the non-integer 109.8 g, separating rounded from unrounded protein
calories. -/
def gainProfile : CalculateGoalsRequest :=
  { age := 30, gender := .male, currentWeight := 60, targetWeight := 61,
    height := 180, activityLevel := "moderately_active", timeframe := 6 }

/-- An extreme but schema-valid profile: 120 years, 1 kg, 50 cm, female. -/
def extremeProfile : CalculateGoalsRequest :=
  { age := 120, gender := .female, currentWeight := 1, targetWeight := 1,
    height := 50, activityLevel := "sedentary", timeframe := 1 }

/-- A schema-valid profile whose protein calories alone (3600 kcal) exceed
the calorie target. -/
def hugeGainProfile : CalculateGoalsRequest :=
  { age := 30, gender := .female, currentWeight := 100, targetWeight := 500,
    height := 150, activityLevel := "sedentary", timeframe := 24 }

theorem rate_example : calculateWeightChangeRate 90 80 6 = -(500/1299) := by
  rw [calculateWeightChangeRate_eq, if_pos (by norm_num : (80:ℚ) < 90),
    show ((80:ℚ) - 90) / (6 * (433/100)) = -(500/1299) by norm_num,
    abs_neg, abs_of_nonneg (by norm_num : (0:ℚ) ≤ 500/1299),
    clamp_mid _ _ _ (by norm_num [minWeightLossPerWeek]) (by norm_num [maxWeightLossPerWeek])]

theorem rate_floor : calculateWeightChangeRate 60 50 3 = -(1000/1299) := by
  rw [calculateWeightChangeRate_eq, if_pos (by norm_num : (50:ℚ) < 60),
    show ((50:ℚ) - 60) / (3 * (433/100)) = -(1000/1299) by norm_num,
    abs_neg, abs_of_nonneg (by norm_num : (0:ℚ) ≤ 1000/1299),
    clamp_mid _ _ _ (by norm_num [minWeightLossPerWeek]) (by norm_num [maxWeightLossPerWeek])]

theorem rate_gain : calculateWeightChangeRate 60 61 6 = 1/4 := by
  rw [calculateWeightChangeRate_eq, if_neg (by norm_num : ¬((61:ℚ) < 60)),
    show ((61:ℚ) - 60) / (6 * (433/100)) = 50/1299 by norm_num,
    abs_of_nonneg (by norm_num : (0:ℚ) ≤ 50/1299),
    clamp_lo _ _ _ (by norm_num [minWeightGainPerWeek])
      (by norm_num [minWeightGainPerWeek, maxWeightGainPerWeek])]
  norm_num [minWeightGainPerWeek]

theorem rate_extreme : calculateWeightChangeRate 1 1 1 = 1/4 := by
  rw [calculateWeightChangeRate_eq, if_neg (by norm_num : ¬((1:ℚ) < 1)),
    show ((1:ℚ) - 1) / (1 * (433/100)) = 0 by norm_num, abs_zero,
    clamp_lo _ _ _ (by norm_num [minWeightGainPerWeek])
      (by norm_num [minWeightGainPerWeek, maxWeightGainPerWeek])]
  norm_num [minWeightGainPerWeek]

theorem rate_hugeGain : calculateWeightChangeRate 100 500 24 = 1/2 := by
  rw [calculateWeightChangeRate_eq, if_neg (by norm_num : ¬((500:ℚ) < 100)),
    show ((500:ℚ) - 100) / (24 * (433/100)) = 5000/1299 by norm_num,
    abs_of_nonneg (by norm_num : (0:ℚ) ≤ 5000/1299),
    clamp_hi _ _ _ (by norm_num [minWeightGainPerWeek])
      (by norm_num [maxWeightGainPerWeek])]
  norm_num [maxWeightGainPerWeek]

theorem goals_example_eval :
    calculatePersonalizedGoals exampleProfile =
      { calories := 2491, carbs := 288, protein := 160, fat := 77,
        bmr := 1880, tdee := 2914, weightChangePerWeek := -(19/50),
        calorieAdjustment := -423 } := by
  norm_num [calculatePersonalizedGoals, exampleProfile, calculateBMR,
    calculateTDEE_moderately, rate_example, calculateCalorieAdjustment,
    calculateMacronutrients, jsRound, CalculatedGoals.mk.injEq]

theorem goals_floor_eval :
    calculatePersonalizedGoals floorProfile =
      { calories := 1200, carbs := 116, protein := 100, fat := 37,
        bmr := 1227, tdee := 1472, weightChangePerWeek := -(77/100),
        calorieAdjustment := -847 } := by
  norm_num [calculatePersonalizedGoals, floorProfile, calculateBMR,
    calculateTDEE_sedentary, rate_floor, calculateCalorieAdjustment,
    calculateMacronutrients, jsRound, CalculatedGoals.mk.injEq]

theorem goals_gain_eval :
    calculatePersonalizedGoals gainProfile =
      { calories := 2724, carbs := 381, protein := 110, fat := 85,
        bmr := 1580, tdee := 2449, weightChangePerWeek := 1/4,
        calorieAdjustment := 275 } := by
  norm_num [calculatePersonalizedGoals, gainProfile, calculateBMR,
    calculateTDEE_moderately, rate_gain, calculateCalorieAdjustment,
    calculateMacronutrients, jsRound, CalculatedGoals.mk.injEq]

theorem goals_extreme_eval :
    calculatePersonalizedGoals extremeProfile =
      { calories := 1200, carbs := 214, protein := 2, fat := 37,
        bmr := -438, tdee := -526, weightChangePerWeek := 1/4,
        calorieAdjustment := 275 } := by
  norm_num [calculatePersonalizedGoals, extremeProfile, calculateBMR,
    calculateTDEE_sedentary, rate_extreme, calculateCalorieAdjustment,
    calculateMacronutrients, jsRound, CalculatedGoals.mk.injEq]

theorem goals_hugeGain_eval :
    calculatePersonalizedGoals hugeGainProfile =
      { calories := 2502, carbs := 0, protein := 900, fat := 78,
        bmr := 1627, tdee := 1952, weightChangePerWeek := 1/2,
        calorieAdjustment := 550 } := by
  norm_num [calculatePersonalizedGoals, hugeGainProfile, calculateBMR,
    calculateTDEE_sedentary, rate_hugeGain, calculateCalorieAdjustment,
    calculateMacronutrients, jsRound, CalculatedGoals.mk.injEq]

theorem validProfile_example : validProfile exampleProfile := by
  norm_num [validProfile, exampleProfile, ACTIVITY_LEVELS]

theorem validProfile_floor : validProfile floorProfile := by
  norm_num [validProfile, floorProfile, ACTIVITY_LEVELS]

theorem validProfile_gain : validProfile gainProfile := by
  norm_num [validProfile, gainProfile, ACTIVITY_LEVELS]

theorem validProfile_extreme : validProfile extremeProfile := by
  norm_num [validProfile, extremeProfile, ACTIVITY_LEVELS]

theorem validProfile_hugeGain : validProfile hugeGainProfile := by
  norm_num [validProfile, hugeGainProfile, ACTIVITY_LEVELS]

/-- The macro split exactly as the spec words it (§4.6 / claim C4):
`proteinGrams = round(targetWeightKg * proteinPerKg)` and
`proteinCalories = proteinGrams * 4` computed from the ROUNDED gram value,
with `carbGrams = round(max(finalCalories - proteinCalories - fatCalories, 0) / 4)`.
This is the comparison definition for the refinement claim; the source
(`calculateMacronutrients`) instead feeds the unrounded grams into
`proteinCalories`. -/
def specMacronutrients (totalCalories targetWeight : ℚ) (isWeightLoss : Bool) : Macros :=
  let proteinPerKg : ℚ := if isWeightLoss then 2 else 9/5
  let proteinGrams : ℤ := jsRound (targetWeight * proteinPerKg)
  let proteinCalories : ℚ := (proteinGrams : ℚ) * 4
  let fatCalories := totalCalories * (28/100)
  let fatGrams := fatCalories / 9
  let carbGrams : ℤ := jsRound (max (totalCalories - proteinCalories - fatCalories) 0 / 4)
  { carbs := carbGrams, protein := proteinGrams, fat := jsRound fatGrams }

theorem specMacros_gain_eval :
    specMacronutrients 2724 61 false = { carbs := 380, protein := 110, fat := 85 } := by
  norm_num [specMacronutrients, jsRound, Macros.mk.injEq]

/-- A request body that passes schema validation; it parses to
`exampleProfile`. -/
def goodBody : RawGoalsBody :=
  { age := 30, gender := "male", currentWeight := 90, targetWeight := 80,
    height := 180, activityLevel := "moderately_active", timeframe := 6 }

/-- A request body failing schema validation: age 0 is below the minimum 1. -/
def badBody : RawGoalsBody :=
  { age := 0, gender := "male", currentWeight := 90, targetWeight := 80,
    height := 180, activityLevel := "moderately_active", timeframe := 6 }

theorem parse_goodBody : calculateGoalsSchemaParse goodBody = .ok exampleProfile := rfl

theorem parse_badBody : calculateGoalsSchemaParse badBody = .error ["age"] := rfl

/-! ## Claims -/

/-- C1: for every valid profile, the calories field equals
`max(round(tdee + calorieAdjustment), minimum)` with minimum 1200 for
female and 1500 for male, so it is at least that gender-specific minimum. -/
theorem goals_calorie_floor (r : CalculateGoalsRequest) (hv : validProfile r) :
    (if r.gender = Gender.female then (1200:ℤ) else 1500) ≤
      (calculatePersonalizedGoals r).calories ∧
    (calculatePersonalizedGoals r).calories =
      max (jsRound (calculateTDEE (calculateBMR r.currentWeight r.height r.age r.gender)
            r.activityLevel +
          (calculateCalorieAdjustment
            (calculateWeightChangeRate r.currentWeight r.targetWeight r.timeframe) : ℚ)))
        (if r.gender = Gender.female then 1200 else 1500) := by
  obtain ⟨age, g, cw, tw, ht, al, tf⟩ := r
  cases g
  · exact ⟨le_max_right _ _, rfl⟩
  · exact ⟨le_max_right _ _, rfl⟩

/-- Witness for C1 at the male example profile of the spec. -/
theorem goals_calorie_floor_witness :
    validProfile exampleProfile ∧
    (1500:ℤ) ≤ (calculatePersonalizedGoals exampleProfile).calories := by
  refine ⟨validProfile_example, ?_⟩
  have h := (goals_calorie_floor exampleProfile validProfile_example).1
  simpa [exampleProfile] using h

/-- C2: the weekly rate is the desired change
`(targetWeight - currentWeight) / (timeframe * 4.33)` with its magnitude
clamped into [0.25, 1.0] (negative result) for loss and [0.25, 0.5]
(positive result) otherwise; it is never zero, and for
targetWeight = currentWeight it equals the clamped minimum +0.25. -/
theorem weightChangeRate_clamped (c t tf : ℚ) (_h1tf : 1 ≤ tf) :
    calculateWeightChangeRate c t tf =
      (if t < c then -(min (max |(t - c) / (tf * (433/100))| (1/4)) 1)
       else min (max |(t - c) / (tf * (433/100))| (1/4)) (1/2)) ∧
    (if t < c then calculateWeightChangeRate c t tf < 0
     else 0 < calculateWeightChangeRate c t tf) ∧
    calculateWeightChangeRate c t tf ≠ 0 ∧
    calculateWeightChangeRate c c tf = 1/4 := by
  refine ⟨?_, ?_, ?_, ?_⟩
  · simpa only [minWeightLossPerWeek, maxWeightLossPerWeek, minWeightGainPerWeek,
      maxWeightGainPerWeek] using calculateWeightChangeRate_eq c t tf
  · rcases lt_or_le t c with h | h
    · rw [if_pos h, calculateWeightChangeRate_eq, if_pos h]
      have hp := clamp_pos |(t - c) / (tf * (433/100))| minWeightLossPerWeek
        maxWeightLossPerWeek (by norm_num [minWeightLossPerWeek])
        (by norm_num [maxWeightLossPerWeek])
      linarith
    · rw [if_neg (not_lt.mpr h), calculateWeightChangeRate_eq, if_neg (not_lt.mpr h)]
      exact clamp_pos _ _ _ (by norm_num [minWeightGainPerWeek])
        (by norm_num [maxWeightGainPerWeek])
  · rcases lt_or_le t c with h | h
    · rw [calculateWeightChangeRate_eq, if_pos h]
      have hp := clamp_pos |(t - c) / (tf * (433/100))| minWeightLossPerWeek
        maxWeightLossPerWeek (by norm_num [minWeightLossPerWeek])
        (by norm_num [maxWeightLossPerWeek])
      exact ne_of_lt (by linarith)
    · rw [calculateWeightChangeRate_eq, if_neg (not_lt.mpr h)]
      exact ne_of_gt (clamp_pos _ _ _ (by norm_num [minWeightGainPerWeek])
        (by norm_num [maxWeightGainPerWeek]))
  · rw [calculateWeightChangeRate_eq, if_neg (lt_irrefl c),
      show (c - c) / (tf * (433/100)) = 0 by rw [sub_self, zero_div], abs_zero,
      clamp_lo _ _ _ (by norm_num [minWeightGainPerWeek])
        (by norm_num [minWeightGainPerWeek, maxWeightGainPerWeek])]
    norm_num [minWeightGainPerWeek]

/-- Witness for C2 at the example inputs (90 kg to 80 kg over 6 months). -/
theorem weightChangeRate_clamped_witness :
    (1:ℚ) ≤ 6 ∧ calculateWeightChangeRate 90 80 6 ≠ 0 :=
  ⟨by norm_num, (weightChangeRate_clamped 90 80 6 (by norm_num)).2.2.1⟩

/-- C3: `calorieAdjustment` and `weightChangePerWeek` are computed from the
clamped weekly rate before the calorie floor and are never recomputed, so
a valid profile exists (a female profile floored to 1200 kcal) whose
calories differ from `round(tdee) + calorieAdjustment`. -/
theorem adjustment_fields_not_recomputed :
    (∀ r : CalculateGoalsRequest, validProfile r →
      (calculatePersonalizedGoals r).calorieAdjustment =
        jsRound (calculateWeightChangeRate r.currentWeight r.targetWeight r.timeframe
          * 7700 / 7) ∧
      (calculatePersonalizedGoals r).weightChangePerWeek =
        (jsRound (calculateWeightChangeRate r.currentWeight r.targetWeight r.timeframe
          * 100) : ℚ) / 100) ∧
    ∃ r : CalculateGoalsRequest, validProfile r ∧
      (calculatePersonalizedGoals r).calories ≠
        jsRound (calculateTDEE (calculateBMR r.currentWeight r.height r.age r.gender)
          r.activityLevel) +
        (calculatePersonalizedGoals r).calorieAdjustment := by
  constructor
  · rintro ⟨age, g, cw, tw, ht, al, tf⟩ -
    exact ⟨rfl, rfl⟩
  · refine ⟨floorProfile, validProfile_floor, ?_⟩
    rw [goals_floor_eval]
    norm_num [floorProfile, calculateBMR, calculateTDEE_sedentary, jsRound]

/-- Witness for the universal part of C3 at the floored female profile. -/
theorem adjustment_fields_not_recomputed_witness :
    validProfile floorProfile ∧
    (calculatePersonalizedGoals floorProfile).calorieAdjustment =
      jsRound (calculateWeightChangeRate floorProfile.currentWeight
        floorProfile.targetWeight floorProfile.timeframe * 7700 / 7) :=
  ⟨validProfile_floor,
    (adjustment_fields_not_recomputed.1 floorProfile validProfile_floor).1⟩

/-- C4 counterexample: at `gainProfile` (target 61 kg, gaining, so
1.8 g/kg gives the non-integer 109.8 g) the carbs field of the code (381 g,
computed from the unrounded protein calories 439.2) differs from the
spec formula (380 g, computed from the rounded 110 g => 440 kcal). -/
theorem macros_rounded_protein_counterexample :
    validProfile gainProfile ∧
    (calculatePersonalizedGoals gainProfile).carbs ≠
      (specMacronutrients ((calculatePersonalizedGoals gainProfile).calories : ℚ)
        gainProfile.targetWeight
        (decide (gainProfile.targetWeight < gainProfile.currentWeight))).carbs := by
  refine ⟨validProfile_gain, ?_⟩
  rw [goals_gain_eval]
  norm_num [gainProfile, specMacros_gain_eval]

/-- C4 amended: the macro split is derived from the floored calorie total,
but protein calories enter the carb remainder UNROUNDED: protein =
`round(targetWeight * proteinPerKg)`, fat = `round(calories * 0.28 / 9)`,
carbs = `round(max((calories - targetWeight*proteinPerKg*4 - calories*0.28)/4, 0))`. -/
theorem macros_from_floored_calories (r : CalculateGoalsRequest) (hv : validProfile r) :
    (calculatePersonalizedGoals r).protein =
      jsRound (r.targetWeight *
        (if r.targetWeight < r.currentWeight then 2 else 9/5)) ∧
    (calculatePersonalizedGoals r).fat =
      jsRound (((calculatePersonalizedGoals r).calories : ℚ) * (28/100) / 9) ∧
    (calculatePersonalizedGoals r).carbs =
      jsRound (max ((((calculatePersonalizedGoals r).calories : ℚ) -
        r.targetWeight * (if r.targetWeight < r.currentWeight then 2 else 9/5) * 4 -
        ((calculatePersonalizedGoals r).calories : ℚ) * (28/100)) / 4) 0) := by
  obtain ⟨age, g, cw, tw, ht, al, tf⟩ := r
  by_cases h : tw < cw
  · have hb : decide (tw < cw) = true := decide_eq_true h
    simp [calculatePersonalizedGoals, calculateMacronutrients, hb, h]
  · have hb : decide (tw < cw) = false := decide_eq_false h
    simp [calculatePersonalizedGoals, calculateMacronutrients, hb, h]

/-- Witness for amended C4 at the slow-gain profile. -/
theorem macros_from_floored_calories_witness :
    validProfile gainProfile ∧
    (calculatePersonalizedGoals gainProfile).protein =
      jsRound (gainProfile.targetWeight *
        (if gainProfile.targetWeight < gainProfile.currentWeight then 2 else 9/5)) :=
  ⟨validProfile_gain, (macros_from_floored_calories gainProfile validProfile_gain).1⟩

/-- C5 counterexample: the schema-valid profile (age 120, 1 kg, 50 cm,
female) yields bmr = -438 and tdee = -526, refuting positivity over the
documented ranges. -/
theorem bmr_positive_counterexample :
    validProfile extremeProfile ∧
    ¬(0 < (calculatePersonalizedGoals extremeProfile).bmr ∧
      0 < (calculatePersonalizedGoals extremeProfile).tdee) := by
  refine ⟨validProfile_extreme, ?_⟩
  norm_num [goals_extreme_eval]

/-- C5 amended: bmr and tdee are strictly positive for valid profiles whose
raw Mifflin-St Jeor base `10*weight + 6.25*height - 5*age - 161` is at
least 1 (extreme in-range combinations such as `extremeProfile` violate
this). -/
theorem bmr_tdee_positive (r : CalculateGoalsRequest) (hv : validProfile r)
    (hbase : 1 ≤ 10 * r.currentWeight + (25/4) * r.height - 5 * r.age - 161) :
    0 < (calculatePersonalizedGoals r).bmr ∧
    0 < (calculatePersonalizedGoals r).tdee := by
  obtain ⟨age, g, cw, tw, ht, al, tf⟩ := r
  obtain ⟨-, -, -, -, -, -, -, -, hal, -, -⟩ := hv
  have hbmr : 1 ≤ calculateBMR cw ht age g := by
    cases g <;> simp only [calculateBMR] <;> linarith
  have hmult : ∃ m : ℚ, calculateTDEE (calculateBMR cw ht age g) al =
      calculateBMR cw ht age g * m ∧ 1 ≤ m := by
    simp only [ACTIVITY_LEVELS, List.mem_cons, List.not_mem_nil, or_false] at hal
    rcases hal with h | h | h | h | h <;> subst h
    · exact ⟨12/10, calculateTDEE_sedentary _, by norm_num⟩
    · exact ⟨1375/1000, calculateTDEE_lightly _, by norm_num⟩
    · exact ⟨155/100, calculateTDEE_moderately _, by norm_num⟩
    · exact ⟨1725/1000, calculateTDEE_very _, by norm_num⟩
    · exact ⟨19/10, calculateTDEE_extremely _, by norm_num⟩
  obtain ⟨m, hm, hm1⟩ := hmult
  have htdee : 1 ≤ calculateTDEE (calculateBMR cw ht age g) al := by
    rw [hm]
    nlinarith
  exact ⟨jsRound_pos _ hbmr, jsRound_pos _ htdee⟩

/-- Witness for amended C5 at the example profile (base value 1714). -/
theorem bmr_tdee_positive_witness :
    validProfile exampleProfile ∧
    (1 ≤ 10 * exampleProfile.currentWeight + (25/4) * exampleProfile.height -
      5 * exampleProfile.age - 161) ∧
    0 < (calculatePersonalizedGoals exampleProfile).bmr := by
  refine ⟨validProfile_example, by norm_num [exampleProfile], ?_⟩
  exact (bmr_tdee_positive exampleProfile validProfile_example
    (by norm_num [exampleProfile])).1

/-- C6 counterexample: at the example profile of the spec the code returns
calories 2491 (not 2485) and carbs 288 (not 128), because the code uses
the unrounded weekly rate for the calorie adjustment (-423, not -429) and
protein supplies 640 kcal (not the 1280 of the spec). -/
theorem example_profile_counterexample :
    ¬((calculatePersonalizedGoals exampleProfile).bmr = 1880 ∧
      (calculatePersonalizedGoals exampleProfile).tdee = 2914 ∧
      (calculatePersonalizedGoals exampleProfile).calories = 2485 ∧
      (calculatePersonalizedGoals exampleProfile).protein = 160 ∧
      (calculatePersonalizedGoals exampleProfile).fat = 77 ∧
      (calculatePersonalizedGoals exampleProfile).carbs = 128) := by
  norm_num [goals_example_eval]

/-- C6 amended: the example profile actually yields bmr 1880, tdee 2914,
calories 2491, protein 160, fat 77, carbs 288. -/
theorem example_profile_eval :
    (calculatePersonalizedGoals exampleProfile).bmr = 1880 ∧
    (calculatePersonalizedGoals exampleProfile).tdee = 2914 ∧
    (calculatePersonalizedGoals exampleProfile).calories = 2491 ∧
    (calculatePersonalizedGoals exampleProfile).protein = 160 ∧
    (calculatePersonalizedGoals exampleProfile).fat = 77 ∧
    (calculatePersonalizedGoals exampleProfile).carbs = 288 := by
  norm_num [goals_example_eval]

/-- C7: the carbs field is clamped at zero before rounding, hence
non-negative for every valid profile, including ones whose protein plus
fat calories exceed the calorie total. -/
theorem carbs_nonneg (r : CalculateGoalsRequest) (hv : validProfile r) :
    0 ≤ (calculatePersonalizedGoals r).carbs := by
  obtain ⟨age, g, cw, tw, ht, al, tf⟩ := r
  exact jsRound_nonneg _ (le_max_right _ _)

/-- Witness for C7 at a profile whose protein calories alone (3600 kcal)
exceed the 2502 kcal target. -/
theorem carbs_nonneg_witness :
    validProfile hugeGainProfile ∧
    0 ≤ (calculatePersonalizedGoals hugeGainProfile).carbs :=
  ⟨validProfile_hugeGain, carbs_nonneg hugeGainProfile validProfile_hugeGain⟩

/-- C8 counterexample: "toString" is outside the five activity levels, yet
the JavaScript lookup finds the inherited `Object.prototype.toString`
function — truthy, so `|| 1.2` does not fire — and `bmr * multiplier`
evaluates to NaN, not `bmr * 1.2`. -/
theorem tdee_prototype_counterexample :
    "toString" ∉ ACTIVITY_LEVELS ∧
    calculateTDEEjs 100 "toString" = JSNum.nan ∧
    calculateTDEEjs 100 "toString" ≠ JSNum.num (100 * (12/10)) := by
  refine ⟨by decide, rfl, ?_⟩
  rw [show calculateTDEEjs 100 "toString" = JSNum.nan from rfl]
  exact fun h => JSNum.noConfusion h

/-- C8 amended: `calculateTDEE` returns bmr times the table multiplier for
each of the five activity levels; a string outside the table that is not
an inherited `Object.prototype` property name is a true lookup miss and
falls back to `bmr * 1.2`; but for the inherited property names
(constructor, hasOwnProperty, ..., toString, valueOf, the four
accessor-definition methods and the `__proto__` accessor) the lookup
returns a truthy inherited value and the result is NaN, not
`bmr * 1.2`. -/
theorem tdee_multiplier_with_prototype (bmr : ℚ) (s : String)
    (hs : s ∉ ACTIVITY_LEVELS) (hp : s ∉ OBJECT_PROTOTYPE_KEYS) :
    calculateTDEEjs bmr "sedentary" = .num (bmr * (12/10)) ∧
    calculateTDEEjs bmr "lightly_active" = .num (bmr * (1375/1000)) ∧
    calculateTDEEjs bmr "moderately_active" = .num (bmr * (155/100)) ∧
    calculateTDEEjs bmr "very_active" = .num (bmr * (1725/1000)) ∧
    calculateTDEEjs bmr "extremely_active" = .num (bmr * (19/10)) ∧
    calculateTDEEjs bmr s = .num (bmr * (12/10)) ∧
    ∀ p ∈ OBJECT_PROTOTYPE_KEYS, calculateTDEEjs bmr p = .nan := by
  refine ⟨rfl, rfl, rfl, rfl, rfl, calculateTDEEjs_miss bmr s hs hp, ?_⟩
  intro p hmem
  fin_cases hmem <;> rfl

/-- Witness for amended C8 with the unknown activity string "unknown". -/
theorem tdee_multiplier_with_prototype_witness :
    "unknown" ∉ ACTIVITY_LEVELS ∧ "unknown" ∉ OBJECT_PROTOTYPE_KEYS ∧
    calculateTDEEjs 100 "unknown" = JSNum.num (100 * (12/10)) := by
  have hs : "unknown" ∉ ACTIVITY_LEVELS := by decide
  have hp : "unknown" ∉ OBJECT_PROTOTYPE_KEYS := by decide
  exact ⟨hs, hp, (tdee_multiplier_with_prototype 100 "unknown" hs hp).2.2.2.2.2.1⟩

/-- C9 counterexample: `badBody` (age 0) fails schema validation, yet the
route replies 500 with the fixed message "Failed to calculate nutrition
goals", not 400 with a structured validation error — the ZodError lands in
the generic catch block. -/
theorem calculate_goals_route_counterexample :
    calculateGoalsSchemaParse badBody = .error ["age"] ∧
    (postCalculateGoals initialDailyGoals badBody).1 =
      { status := 500, body := .jsonMessage "Failed to calculate nutrition goals" } ∧
    (postCalculateGoals initialDailyGoals badBody).1.status ≠ 400 := by
  refine ⟨parse_badBody, rfl, ?_⟩
  rw [show (postCalculateGoals initialDailyGoals badBody).1.status = 500 from rfl]
  norm_num

/-- C9 amended: a body failing schema validation yields status 500 with
the generic message (not 400 with field details); a valid body yields 200
with the CalculatedGoals object. -/
theorem calculate_goals_route_responses (st : DailyGoals) (b : RawGoalsBody) :
    (postCalculateGoals st b).1 =
      match calculateGoalsSchemaParse b with
      | .error _ =>
        { status := 500, body := .jsonMessage "Failed to calculate nutrition goals" }
      | .ok r => { status := 200, body := .goals (calculatePersonalizedGoals r) } := by
  unfold postCalculateGoals
  cases calculateGoalsSchemaParse b <;> rfl

/-- C10: a successful request to POST /api/calculate-goals overwrites the
stored daily goals with the computed calories, carbs, protein and fat,
keeping the id of the stored record — the endpoint mutates storage even though
the calculator is pure. -/
theorem calculate_goals_updates_store (st : DailyGoals) (b : RawGoalsBody)
    (r : CalculateGoalsRequest) (hok : calculateGoalsSchemaParse b = .ok r) :
    ((postCalculateGoals st b).2).calories = ((calculatePersonalizedGoals r).calories : ℚ) ∧
    ((postCalculateGoals st b).2).carbs = ((calculatePersonalizedGoals r).carbs : ℚ) ∧
    ((postCalculateGoals st b).2).protein = ((calculatePersonalizedGoals r).protein : ℚ) ∧
    ((postCalculateGoals st b).2).fat = ((calculatePersonalizedGoals r).fat : ℚ) ∧
    ((postCalculateGoals st b).2).id = st.id := by
  unfold postCalculateGoals
  rw [hok]
  exact ⟨rfl, rfl, rfl, rfl, rfl⟩

/-- Witness for C10: the good body, parsed to the example profile, updates
the calories of the initial store and keeps its id. -/
theorem calculate_goals_updates_store_witness :
    calculateGoalsSchemaParse goodBody = Except.ok exampleProfile ∧
    ((postCalculateGoals initialDailyGoals goodBody).2).calories =
      ((calculatePersonalizedGoals exampleProfile).calories : ℚ) ∧
    ((postCalculateGoals initialDailyGoals goodBody).2).id = initialDailyGoals.id :=
  ⟨parse_goodBody,
    (calculate_goals_updates_store initialDailyGoals goodBody exampleProfile
      parse_goodBody).1,
    (calculate_goals_updates_store initialDailyGoals goodBody exampleProfile
      parse_goodBody).2.2.2.2⟩

end NutriTracker
